import Mathlib

/-
Verification of the nscfg predicate-expansion engine (src/src/config.rs,
src/src/errors.rs, src/src/lib.rs) against its natural-language specification.

Strings are embedded as lists of characters (`Str`); Rust byte positions from
`str::find` become character indices, which split a string at the same place.
The process environment (and, where needed, the file system) is embedded as an
explicit read-only association list passed to each function that reads it.
Fallible Rust functions returning `Result` become `Except`; a Rust panic is
embedded as `Option.none`.
-/

namespace Nscfg

/-- Strings are embedded as lists of characters. -/
abbrev Str := List Char

/-- A read-only key/value store: embeds the process environment (`env::var`)
and, for the manifest probe, the file system (`fs::read_to_string`). -/
abbrev EnvMap := List (Str × Str)

/-- Lookup in the key/value store; `none` embeds `Err(VarError)` of `env::var`
and `Err` of `fs::read_to_string`. -/
def lookupEnv (env : EnvMap) (key : Str) : Option Str :=
  (env.find? (fun e => e.1 == key)).map (·.2)

/-- `env::set_var`: the new binding shadows any previous one, since
`lookupEnv` returns the first match. -/
def setEnv (env : EnvMap) (key value : Str) : EnvMap :=
  (key, value) :: env

/-- Rust `str::trim` (config.rs uses it on the label and the predicate key):
removes leading and trailing whitespace. -/
def trim (s : Str) : Str :=
  ((s.dropWhile Char.isWhitespace).reverse.dropWhile Char.isWhitespace).reverse

/-- Character index of the first `':'`, embedding `tokens.find(":")` of
config.rs line 167. -/
def findColon : Str → Option Nat
  | [] => none
  | c :: rest => if c = ':' then some 0 else (findColon rest).map (· + 1)

/-- Worker for `replaceAll`: scans left to right; a `skip` counter consumes the
rest of a matched pattern so matches never overlap, as in Rust
`str::replace`. -/
def replaceGo (pat rep : Str) : Nat → Str → Str
  | _, [] => []
  | Nat.succ k, _ :: rest => replaceGo pat rep k rest
  | 0, c :: rest =>
    if pat.isPrefixOf (c :: rest)
    then rep ++ replaceGo pat rep (pat.length - 1) rest
    else c :: replaceGo pat rep 0 rest

/-- Rust `str::replace(pat, rep)`: replace every non-overlapping occurrence of
`pat` in `s` by `rep`, scanning left to right. (The source only calls it with
the non-empty pattern `"{}"`; an empty pattern leaves `s` unchanged here.) -/
def replaceAll (s pat rep : Str) : Str :=
  if pat = [] then s else replaceGo pat rep 0 s

/-- Rust `str::find(pat).is_some()`: does `s` contain `pat` as a contiguous
substring? Embeds the `content.find(NSCFG_DOCRS_TAG)` probe of config.rs. -/
def hasSubstr (s pat : Str) : Bool :=
  match s with
  | [] => pat.isEmpty
  | c :: rest => pat.isPrefixOf (c :: rest) || hasSubstr rest pat

-- Constants of config.rs (lines 34-43).

/-- config.rs: key prefix used to fetch a custom predicate. -/
def ENV_KEY_PREDICATE : Str := "nscfg_predicate-".toList

/-- config.rs: key prefix used to fetch a custom alias. -/
def ENV_KEY_ALIAS : Str := "nscfg-".toList

/-- config.rs: predicate placeholder. -/
def PREDICATE_PLACEHOLDER : Str := "{}".toList

/-- config.rs: key for the nscfg autodocumentation parameter. -/
def AUTO_DOC_KEY : Str := "nscfg_autodoc".toList

/-- config.rs: key for the nscfg release modifier behaviour parameter. -/
def MODIFIER_BEHAVIOUR_KEY : Str := "nscfg_release_modifier_behaviour".toList

/-- config.rs: key value of cargo.toml caching. -/
def NSCFG_CARGO_CACHE : Str := "CFG_BOOST_ATTR_DOC_SET".toList

/-- config.rs: tag to search in Cargo.toml. -/
def NSCFG_DOCRS_TAG : Str := "[package.metadata.docs.rs]".toList

/-- config.rs: cargo manifest dir key. -/
def CARGO_MANIFEST_DIR : Str := "CARGO_MANIFEST_DIR".toList

/-- config.rs: cargo manifest file name. -/
def CARGO_MANIFEST_NAME : Str := "Cargo.toml".toList

/-- config.rs: doc alias. -/
def DOC_ALIAS : Str := "doc".toList

/-- config.rs lines 46-59: the built-in alias table (12 entries). -/
def ALIASES : List (Str × Str) := [
  ("linux".toList, "linux:os".toList),
  ("unix".toList, "unix:_".toList),
  ("windows".toList, "windows:_".toList),
  ("macos".toList, "macos:os".toList),
  ("android".toList, "android:os".toList),
  ("ios".toList, "ios:os".toList),
  ("wasm".toList, "wasm:_".toList),
  (DOC_ALIAS, "doc:_".toList),
  ("test".toList, "test:_".toList),
  ("debug".toList, "debug_assertions:_".toList),
  ("desktop".toList, "linux:os | windows:_ | macos:os".toList),
  ("mobile".toList, "android:os | ios:os".toList)
]

/-- config.rs lines 62-75: the built-in predicate table (12 entries). -/
def PREDICATES : List (Str × Str) := [
  ("ar".toList, "target_arch = \"{}\"".toList),
  ("tf".toList, "target_feature = \"{}\"".toList),
  ("os".toList, "target_os = \"{}\"".toList),
  ("fm".toList, "target_family = \"{}\"".toList),
  ("ev".toList, "target_env = \"{}\"".toList),
  ("ed".toList, "target_endian = \"{}\"".toList),
  ("pw".toList, "target_pointer_width = \"{}\"".toList),
  ("vn".toList, "target_vendor = \"{}\"".toList),
  ("at".toList, "target_has_atomic = \"{}\"".toList),
  ("pn".toList, "panic = \"{}\"".toList),
  ("ft".toList, "feature = \"{}\"".toList),
  ("_".toList, PREDICATE_PLACEHOLDER)
]

/-- config.rs lines 77-83: behaviour of modifiers on release builds. -/
inductive ReleaseModifierBehaviour where
  | Panic
  | Ignore
deriving DecidableEq

/-- errors.rs lines 28-86: possible nscfg errors. -/
inductive NSCFGError where
  | MissingOperator
  | EmptyNode
  | InvalidCharacter (c : Str)
  | AliasNotFound (a : Str)
  | InvalidConfigurationPredicate (cfg_prd : Str)
  | EmptyArm
  | WildcardArmNotLast
  | ArmSeparatorMissing
  | ContentSeparatorError
  | WildcardArmMissing
  | WildcardArmOnTarget
  | TargetInFunction
  | LegacySyntaxError
  | MixedSyntaxError
  | ContentSeparatorMissing
  | ModifierNotFirst
  | ModifierPanicRelease
  | MatchModifierMoreThanOneActivate
  | MatchDeactivatedWildArm
deriving DecidableEq

/-- config.rs lines 92-103: the modifier behaviour on release. Rust matches the
variable's value against the string literals `"panic"` and `"ignore"`; any
other value, and an unset variable, give the default `Panic`. -/
def get_release_modifier_behaviour (env : EnvMap) : ReleaseModifierBehaviour :=
  match lookupEnv env MODIFIER_BEHAVIOUR_KEY with
  | some value =>
    if value = "panic".toList then ReleaseModifierBehaviour.Panic
    else if value = "ignore".toList then ReleaseModifierBehaviour.Ignore
    else ReleaseModifierBehaviour.Panic
  | none => ReleaseModifierBehaviour.Panic

/-- config.rs lines 109-118: whether autodocumentation is enabled. Rust matches
the value against `"true"` and `"false"`; any other value, and an unset
variable, give the default `true`. -/
def is_nscfg_autodoc (env : EnvMap) : Bool :=
  match lookupEnv env AUTO_DOC_KEY with
  | some value =>
    if value = "true".toList then true
    else if value = "false".toList then false
    else true
  | none => true

/-- config.rs lines 123-156: whether cfg-attr is generated for documentation
labels. The file system is a second read-only map; `none` embeds the panic of
`env::var(CARGO_MANIFEST_DIR).unwrap()`, which in the source is evaluated
before the manifest file is read. On a cache miss the result is cached with
`env::set_var`, so the (possibly updated) environment is returned as well. -/
def if_docsrs_enabled (env : EnvMap) (fs : EnvMap) : Option (Bool × EnvMap) :=
  match lookupEnv env NSCFG_CARGO_CACHE with
  | some value => some (value == "true".toList, env)
  | none =>
    match lookupEnv env CARGO_MANIFEST_DIR with
    | none => none
    | some dir =>
      let str_path := dir ++ "/".toList ++ CARGO_MANIFEST_NAME
      match lookupEnv fs str_path with
      | some content =>
        if hasSubstr content NSCFG_DOCRS_TAG
        then some (true, setEnv env NSCFG_CARGO_CACHE "true".toList)
        else some (false, setEnv env NSCFG_CARGO_CACHE "false".toList)
      | none => some (false, setEnv env NSCFG_CARGO_CACHE "false".toList)

/-- config.rs lines 173-185, the part of `get_nscfg_predicate` after the label
and the predicate key have been cut at the colon: the environment override is
consulted first, then the built-in `PREDICATES` table, and the placeholder of
the winning template is replaced by the label. Factored out of
`get_nscfg_predicate` only so lemmas can name it; the two definitions together
are a line-by-line translation of the source function. -/
def predicate_lookup (env : EnvMap) (label cfg_opt : Str) : Except NSCFGError Str :=
  match lookupEnv env (ENV_KEY_PREDICATE ++ cfg_opt) with
  | some cfg_value => Except.ok (replaceAll cfg_value PREDICATE_PLACEHOLDER label)
  | none =>
    match PREDICATES.find? (fun p => p.1 == cfg_opt) with
    | some pred => Except.ok (replaceAll pred.2 PREDICATE_PLACEHOLDER label)
    | none => Except.error (NSCFGError.InvalidConfigurationPredicate cfg_opt)

/-- config.rs lines 164-192: parse tokens to generate a configuration
predicate. The label is the trimmed text before the first colon, the predicate
key the trimmed text after it; without a colon the whole token text is
reported in the error. -/
def get_nscfg_predicate (env : EnvMap) (tokens : Str) : Except NSCFGError Str :=
  match findColon tokens with
  | some position =>
    predicate_lookup env (trim (tokens.take position)) (trim (tokens.drop (position + 1)))
  | none => Except.error (NSCFGError.InvalidConfigurationPredicate tokens)

/-- config.rs lines 200-217: parse a label to generate alias content. The
environment override is consulted first, then the built-in `ALIASES` table. -/
def get_nscfg_alias (env : EnvMap) (label : Str) : Except NSCFGError Str :=
  match lookupEnv env (ENV_KEY_ALIAS ++ label) with
  | some a => Except.ok a
  | none =>
    match ALIASES.find? (fun a => a.1 == label) with
    | some a => Except.ok a.2
    | none => Except.error (NSCFGError.AliasNotFound label)

-- Constants that errors.rs imports from arm.rs, which is not part of the
-- sources at hand.

/-- Modelled from the spec: `arm.rs` is not under src/. Spec §6 fixes the arm
separator as the comma. -/
def ARM_SEPARATOR : Str := ",".toList

/-- Modelled from the spec: `arm.rs` is not under src/. Spec §4.1 fixes the
two-character content separator as `=>`; this is its first character. -/
def CONTENT_SEPARATOR_0 : Str := "=".toList

/-- Modelled from the spec: `arm.rs` is not under src/. Second character of the
content separator `=>`. -/
def CONTENT_SEPARATOR_1 : Str := ">".toList

/-- Modelled from the spec: `arm.rs` is not under src/. Spec §6 denotes the
wildcard arm by `_`. -/
def WILDCARD_ARM : Str := "_".toList

/-- Modelled from the spec: `arm.rs` is not under src/. The repository's tests
write the activation modifier as `+`. -/
def MODIFIER_ACTIVATE : Str := "+".toList

/-- Modelled from the spec: `arm.rs` is not under src/. The repository's tests
write the deactivation modifier as `-`. -/
def MODIFIER_DEACTIVATE : Str := "-".toList

/-- Modelled from the spec: `arm.rs` is not under src/ and neither the spec nor
the tests fix the glyph of the panic modifier; it is only interpolated into
error messages no claim is about. -/
def MODIFIER_PANIC : Str := "*".toList

/-- Rust `{:?}` formatting of a `&str`: the text between double quotes with
quotes, backslashes and the common control characters escaped (the full
`escape_debug` also escapes other non-printable characters; the messages under
verification never contain those). -/
def escapeDebugChar (c : Char) : Str :=
  if c = '"' then ['\\', '"']
  else if c = '\\' then ['\\', '\\']
  else if c = '\n' then ['\\', 'n']
  else if c = '\t' then ['\\', 't']
  else if c = '\r' then ['\\', 'r']
  else [c]

/-- Rust `{:?}` formatting of a `&str` (see `escapeDebugChar`). -/
def debugFormat (s : Str) : Str :=
  '"' :: (s.map escapeDebugChar).flatten ++ ['"']

/-- errors.rs lines 89-113: the error message of each kind, a line-by-line
translation of the `format!` strings; `tokens` is the text the message is
about and `{:?}` interpolation is `debugFormat`. -/
def NSCFGError.message (e : NSCFGError) (tokens : Str) : Str :=
  match e with
  | NSCFGError.MissingOperator =>
    "Operator `&` or '|' missing for `".toList ++ debugFormat tokens
      ++ "`. Target must not contain space.".toList
  | NSCFGError.EmptyNode =>
    "Empty node generated from attributes. Are you missing a statement between separator?".toList
  | NSCFGError.InvalidCharacter c =>
    "Invalid character `".toList ++ c ++ "` for `".toList ++ debugFormat tokens ++ "`.".toList
  | NSCFGError.AliasNotFound a =>
    "Alias `".toList ++ a ++ "` has no match! Is it added in config.toml as `target_cfg-".toList
      ++ a ++ "`?".toList
  | NSCFGError.InvalidConfigurationPredicate cfg_prd =>
    "Configuration predicate `".toList ++ cfg_prd
      ++ "` has no match! Is it added in config.toml as `target_cfg_predicate-".toList
      ++ cfg_prd ++ "`?".toList
  | NSCFGError.EmptyArm => "Empty arm with no attributes detected!".toList
  | NSCFGError.WildcardArmNotLast =>
    "Wildcard branch `_` must ALWAYS be the last branch.".toList
  | NSCFGError.ArmSeparatorMissing =>
    "Arm syntax incorrect. Are you missing a separator `".toList ++ ARM_SEPARATOR
      ++ "` between arms?".toList
  | NSCFGError.ContentSeparatorError =>
    "Arm syntax incorrect. Is your arm separator `".toList ++ CONTENT_SEPARATOR_0
      ++ CONTENT_SEPARATOR_1 ++ "` syntax Ok?".toList
  | NSCFGError.WildcardArmMissing =>
    "Ensure that all possible cases are being handled by adding a match arm with a `".toList
      ++ WILDCARD_ARM ++ "` wildcard pattern.".toList
  | NSCFGError.WildcardArmOnTarget =>
    "target_cfg! macro cannot have a `".toList ++ WILDCARD_ARM ++ "` wildcard pattern.".toList
  | NSCFGError.TargetInFunction =>
    "target_cfg! macro cannot be used inside a function. Use match_cfg! instead.".toList
  | NSCFGError.LegacySyntaxError =>
    "Legacy syntax error in `".toList ++ tokens ++ "`.".toList
  | NSCFGError.MixedSyntaxError =>
    "Legacy syntax and simplified syntax can't be mixed on same arm!".toList
  | NSCFGError.ContentSeparatorMissing =>
    "Arm content separator `".toList ++ CONTENT_SEPARATOR_0 ++ CONTENT_SEPARATOR_1
      ++ "` missing!".toList
  | NSCFGError.ModifierNotFirst =>
    "Arm modifiers `".toList ++ MODIFIER_ACTIVATE ++ "`, `".toList ++ MODIFIER_DEACTIVATE
      ++ "` and `".toList ++ MODIFIER_PANIC
      ++ "` must be the first character of arm!".toList
  | NSCFGError.ModifierPanicRelease =>
    "Arm modifiers `".toList ++ MODIFIER_ACTIVATE ++ "` and `".toList ++ MODIFIER_DEACTIVATE
      ++ "` will panic during release compilation by default! This behaviour can be changed. See https://github.com/NickelAngeStudio/nscfg/wiki/Syntax#six-modifiers".toList
  | NSCFGError.MatchModifierMoreThanOneActivate =>
    "match_cfg! cannot have more than one `".toList ++ MODIFIER_ACTIVATE ++ "` modifier!".toList
  | NSCFGError.MatchDeactivatedWildArm =>
    "match_cfg! cannot deactivate wildcard arm with `".toList ++ MODIFIER_DEACTIVATE
      ++ "` modifier!".toList

-- Token model of proc_macro for lib.rs.

/-- proc_macro delimiters of a token group. -/
inductive Delimiter where
  | Parenthesis
  | Brace
  | Bracket
  | NoneDelim

/-- A proc_macro token tree: an atomic token (identifier, punctuation or
literal) or a delimited group of token trees. -/
inductive TokenTree where
  | tok (s : Str)
  | group (d : Delimiter) (ts : List TokenTree)

/-- A proc_macro token stream as the list of its token trees; `extend` on a
Rust `TokenStream` is list append. -/
abbrev TokenStream := List TokenTree

/-- lib.rs: proc macro source enumeration to determinate matching macro
source. -/
inductive NscfgMacroSource where
  | TargetMacro
  | MatchMacro

/-- Modelled from the spec: `arm.rs` (struct TargetArm) is not under src/.
lib.rs reads three of its fields: `cfg_ts`, the structural predicate header;
`attr_ts`, the documentation-wrapper header (spec §4.6, emitted even when
doc-wrapping was a no-op); and `content`, the arm's content block. -/
structure TargetArm where
  cfg_ts : TokenStream
  attr_ts : TokenStream
  content : TokenStream

/-- Modelled from the spec: `syntax.rs` is not under src/. Spec §4.6 says an
arm's content block is partitioned into its top-level items without altering
any item's internal text; an item boundary is placed after a top-level `;`
token or a top-level brace group. -/
def isItemEnd : TokenTree → Bool
  | TokenTree.tok s => s = ";".toList
  | TokenTree.group Delimiter.Brace _ => true
  | TokenTree.group _ _ => false

/-- Worker for `split_items`: `cur` carries the reversed tokens of the item
being accumulated. -/
def split_items_go : TokenStream → TokenStream → List TokenStream
  | cur, [] => match cur with | [] => [] | _ => [cur.reverse]
  | cur, t :: rest =>
    match isItemEnd t with
    | true => (t :: cur).reverse :: split_items_go [] rest
    | false => split_items_go (t :: cur) rest

/-- Modelled from the spec: `syntax.rs` (syntax::split_items) is not under
src/. Partitions a content block into its sequence of top-level items (spec
§4.6). -/
def split_items (ts : TokenStream) : List TokenStream :=
  split_items_go [] ts

/-- lib.rs lines 186-216: the emission loop of the target_cfg! procedural
macro, over the arm list the (absent) extraction step produced. For each arm
in order and each of its items in order, the cfg header, the cfg_attr header
and the item are appended to the accumulated content. -/
def target_cfg (arms : List TargetArm) : TokenStream :=
  arms.foldl
    (fun content arm =>
      (split_items arm.content).foldl
        (fun content item => content ++ arm.cfg_ts ++ arm.attr_ts ++ item)
        content)
    []

/-- lib.rs lines 291-311: the emission loop of the match_cfg! procedural
macro. For each arm in order, the cfg header and the arm's content in one
brace group are appended; the whole output is wrapped in one brace group. -/
def match_cfg (arms : List TargetArm) : TokenStream :=
  [TokenTree.group Delimiter.Brace
    (arms.foldl
      (fun content arm =>
        content ++ arm.cfg_ts ++ [TokenTree.group Delimiter.Brace arm.content])
      [])]

/-- The token stream produced by parsing the separator string " => " of lib.rs
line 356: the two punctuation tokens `=` and `>`. -/
def ARROW_TOKENS : TokenStream := [TokenTree.tok "=".toList, TokenTree.tok ">".toList]

/-- lib.rs lines 351-362: the meta_cfg attribute macro. It builds a stream
from the attribute tokens, the parsed separator " => " and the item wrapped in
one brace group, and hands that stream to the target_cfg! macro. The raw
target_cfg! entry point (arm extraction included) is the parameter `tc`, since
the extraction code (arm.rs) is not under src/. -/
def meta_cfg (tc : TokenStream → TokenStream) (attr : TokenStream) (item : TokenStream) :
    TokenStream :=
  tc (attr ++ ARROW_TOKENS ++ [TokenTree.group Delimiter.Brace item])

/-- Follows the spec's words for the refinement claim: the token stream of the
single arm `attr => { item }` — attr, then the separator `=>`, then item
wrapped in one brace group. -/
def single_arm_invocation (attr : TokenStream) (item : TokenStream) : TokenStream :=
  attr ++ ARROW_TOKENS ++ [TokenTree.group Delimiter.Brace item]

/-- The tokens target_cfg emits for a single arm: for each item of the arm's
content, the cfg header, then the cfg_attr header, then the item. -/
def target_arm_emission (arm : TargetArm) : TokenStream :=
  ((split_items arm.content).map (fun item => arm.cfg_ts ++ arm.attr_ts ++ item)).flatten

/-- The tokens match_cfg emits for a single arm: the cfg header, then the arm's
content in one brace group. -/
def match_arm_emission (arm : TargetArm) : TokenStream :=
  arm.cfg_ts ++ [TokenTree.group Delimiter.Brace arm.content]

-- Helper lemmas.

/-- The keys of the built-in alias table are pairwise distinct. -/
theorem ALIASES_keys_nodup : (ALIASES.map Prod.fst).Nodup := by decide

/-- The keys of the built-in predicate table are pairwise distinct. -/
theorem PREDICATES_keys_nodup : (PREDICATES.map Prod.fst).Nodup := by decide

/-- Association lookup by `find?` returns the unique pair of a present key. -/
theorem find?_assoc_eq_some {ps : List (Str × Str)} {k v : Str}
    (hnd : (ps.map Prod.fst).Nodup) (hmem : (k, v) ∈ ps) :
    ps.find? (fun p => p.1 == k) = some (k, v) := by
  induction ps with
  | nil => cases hmem
  | cons hd tl ih =>
    rw [List.map_cons, List.nodup_cons] at hnd
    rcases List.mem_cons.mp hmem with heq | htl
    · rw [← heq, List.find?_cons_of_pos _ (by simp)]
    · have hkmem : k ∈ tl.map Prod.fst := List.mem_map_of_mem Prod.fst htl
      have hne : ¬ hd.1 = k := fun he => hnd.1 (he ▸ hkmem)
      rw [List.find?_cons_of_neg _ (by simpa using hne)]
      exact ih hnd.2 htl

/-- Association lookup by `find?` fails for an absent key. -/
theorem find?_assoc_eq_none {ps : List (Str × Str)} {k : Str}
    (h : k ∉ ps.map Prod.fst) :
    ps.find? (fun p => p.1 == k) = none := by
  rw [List.find?_eq_none]
  intro x hx he
  rw [beq_iff_eq] at he
  exact h (he ▸ List.mem_map_of_mem Prod.fst hx)

/-- A string without a colon has no colon position. -/
theorem findColon_eq_none {s : Str} (h : ':' ∉ s) : findColon s = none := by
  induction s with
  | nil => rfl
  | cons c rest ih =>
    have hc : ¬ c = ':' := by intro he; subst he; exact h (List.mem_cons_self _ _)
    have hr : ':' ∉ rest := fun hm => h (List.mem_cons_of_mem c hm)
    simp [findColon, hc, ih hr]

/-- The first colon of `label ++ ':' :: key` is right after `label` when
`label` itself has none. -/
theorem findColon_append (label key : Str) (h : ':' ∉ label) :
    findColon (label ++ ':' :: key) = some label.length := by
  induction label with
  | nil => simp [findColon]
  | cons c rest ih =>
    have hc : ¬ c = ':' := by intro he; subst he; exact h (List.mem_cons_self _ _)
    have hr : ':' ∉ rest := fun hm => h (List.mem_cons_of_mem c hm)
    simp [findColon, hc, ih hr]

/-- Taking the length of the left part of an append returns the left part. -/
theorem take_length_append (l₁ l₂ : Str) : (l₁ ++ l₂).take l₁.length = l₁ := by
  induction l₁ with
  | nil => rfl
  | cons c rest ih => simp [ih]

/-- Dropping past the separator of `l₁ ++ c :: l₂` returns `l₂`. -/
theorem drop_length_append (l₁ l₂ : Str) (c : Char) :
    (l₁ ++ c :: l₂).drop (l₁.length + 1) = l₂ := by
  induction l₁ with
  | nil => rfl
  | cons d rest ih => simp [ih]

/-- On an input of the shape `label:key`, `get_nscfg_predicate` resolves the
trimmed label and trimmed key through `predicate_lookup`. -/
theorem get_nscfg_predicate_split (env : EnvMap) (label key : Str) (h : ':' ∉ label) :
    get_nscfg_predicate env (label ++ ':' :: key) =
      predicate_lookup env (trim label) (trim key) := by
  unfold get_nscfg_predicate
  rw [findColon_append label key h]
  show predicate_lookup env (trim ((label ++ ':' :: key).take label.length))
      (trim ((label ++ ':' :: key).drop (label.length + 1))) = _
  rw [take_length_append, drop_length_append]

/-- A set environment override wins in `predicate_lookup`. -/
theorem predicate_lookup_override (env : EnvMap) (label key tmpl : Str)
    (h : lookupEnv env (ENV_KEY_PREDICATE ++ key) = some tmpl) :
    predicate_lookup env label key =
      Except.ok (replaceAll tmpl PREDICATE_PLACEHOLDER label) := by
  unfold predicate_lookup
  rw [h]

/-- Without an override, `predicate_lookup` substitutes the built-in
template. -/
theorem predicate_lookup_builtin (env : EnvMap) (label key tmpl : Str)
    (h : lookupEnv env (ENV_KEY_PREDICATE ++ key) = none)
    (hm : (key, tmpl) ∈ PREDICATES) :
    predicate_lookup env label key =
      Except.ok (replaceAll tmpl PREDICATE_PLACEHOLDER label) := by
  unfold predicate_lookup
  rw [h, find?_assoc_eq_some PREDICATES_keys_nodup hm]

/-- A key in neither store makes `predicate_lookup` fail. -/
theorem predicate_lookup_missing (env : EnvMap) (label key : Str)
    (h : lookupEnv env (ENV_KEY_PREDICATE ++ key) = none)
    (hm : key ∉ PREDICATES.map Prod.fst) :
    predicate_lookup env label key =
      Except.error (NSCFGError.InvalidConfigurationPredicate key) := by
  unfold predicate_lookup
  rw [h, find?_assoc_eq_none hm]

/-- Flattening the split items reassembles the content, whatever is in the
accumulator. -/
theorem split_items_go_flatten (ts : TokenStream) :
    ∀ cur : TokenStream, (split_items_go cur ts).flatten = cur.reverse ++ ts := by
  induction ts with
  | nil =>
    intro cur
    cases cur with
    | nil => rfl
    | cons c rest => simp [split_items_go]
  | cons t rest ih =>
    intro cur
    cases hend : isItemEnd t with
    | true => simp [split_items_go, hend, ih []]
    | false =>
      have h := ih (t :: cur)
      simp only [List.reverse_cons, List.append_assoc, List.singleton_append] at h
      simp [split_items_go, hend, h]

/-- Splitting a content block into items drops, duplicates and reorders
nothing: flattening the items gives the block back. -/
theorem split_items_flatten (ts : TokenStream) : (split_items ts).flatten = ts := by
  have h := split_items_go_flatten ts []
  simpa [split_items] using h

/-- The inner loop of target_cfg accumulates, for each item in order, the cfg
header, the cfg_attr header and the item. -/
theorem target_inner_foldl (cfg attr_h : TokenStream) (items : List TokenStream) :
    ∀ init : TokenStream,
      items.foldl (fun content item => content ++ cfg ++ attr_h ++ item) init
        = init ++ (items.map (fun item => cfg ++ attr_h ++ item)).flatten := by
  induction items with
  | nil => intro init; simp
  | cons hd tl ih =>
    intro init
    rw [List.foldl_cons, ih]
    simp [List.append_assoc]

/-- The outer loop of target_cfg concatenates the per-arm emissions in arm
order. -/
theorem target_cfg_foldl (arms : List TargetArm) :
    ∀ init : TokenStream,
      arms.foldl
        (fun content arm =>
          (split_items arm.content).foldl
            (fun content item => content ++ arm.cfg_ts ++ arm.attr_ts ++ item)
            content)
        init
        = init ++ (arms.map target_arm_emission).flatten := by
  induction arms with
  | nil => intro init; simp
  | cons hd tl ih =>
    intro init
    simp only [List.foldl_cons, List.map_cons, List.flatten_cons]
    rw [target_inner_foldl, ih]
    simp [target_arm_emission, List.append_assoc]

/-- The loop of match_cfg concatenates the per-arm emissions in arm order. -/
theorem match_cfg_foldl (arms : List TargetArm) :
    ∀ init : TokenStream,
      arms.foldl
        (fun content arm =>
          content ++ arm.cfg_ts ++ [TokenTree.group Delimiter.Brace arm.content])
        init
        = init ++ (arms.map match_arm_emission).flatten := by
  induction arms with
  | nil => intro init; simp
  | cons hd tl ih =>
    intro init
    rw [List.foldl_cons, ih]
    simp [match_arm_emission, List.append_assoc]

-- Claim theorems.

/-- C1: for an input of the form `label:key`, `get_nscfg_predicate` first
consults the environment variable `nscfg_predicate-<key>` and, if set,
substitutes the label into that template's `\x7b\x7d` placeholder; otherwise it
consults the built-in PREDICATES table and substitutes identically; if the key
is in neither it fails with `InvalidConfigurationPredicate(key)`. The override
wins unconditionally, so it takes precedence over a built-in entry for the
same key. -/
theorem get_nscfg_predicate_resolution (env : EnvMap) (label key : Str)
    (hcolon : ':' ∉ label) (hltrim : trim label = label) (hktrim : trim key = key) :
    (∀ tmpl, lookupEnv env (ENV_KEY_PREDICATE ++ key) = some tmpl →
      get_nscfg_predicate env (label ++ ':' :: key) =
        Except.ok (replaceAll tmpl PREDICATE_PLACEHOLDER label))
    ∧ (∀ tmpl, lookupEnv env (ENV_KEY_PREDICATE ++ key) = none → (key, tmpl) ∈ PREDICATES →
      get_nscfg_predicate env (label ++ ':' :: key) =
        Except.ok (replaceAll tmpl PREDICATE_PLACEHOLDER label))
    ∧ (lookupEnv env (ENV_KEY_PREDICATE ++ key) = none → key ∉ PREDICATES.map Prod.fst →
      get_nscfg_predicate env (label ++ ':' :: key) =
        Except.error (NSCFGError.InvalidConfigurationPredicate key)) := by
  refine ⟨fun tmpl h => ?_, fun tmpl h hm => ?_, fun h hm => ?_⟩ <;>
    rw [get_nscfg_predicate_split env label key hcolon, hltrim, hktrim]
  · exact predicate_lookup_override env label key tmpl h
  · exact predicate_lookup_builtin env label key tmpl h hm
  · exact predicate_lookup_missing env label key h hm

/-- Witness for C1 at label `linux` and key `os`: an override template beats
the built-in `os` entry; without one the built-in is substituted; an unknown
key `zz` is rejected. -/
theorem get_nscfg_predicate_resolution_witness :
    get_nscfg_predicate [(("nscfg_predicate-os").toList, ("custom_os = \"{}\"").toList)]
        ("linux".toList ++ ':' :: "os".toList)
      = Except.ok ("custom_os = \"linux\"").toList
    ∧ get_nscfg_predicate [] ("linux".toList ++ ':' :: "os".toList)
      = Except.ok ("target_os = \"linux\"").toList
    ∧ get_nscfg_predicate [] ("linux".toList ++ ':' :: "zz".toList)
      = Except.error (NSCFGError.InvalidConfigurationPredicate "zz".toList) := by
  refine ⟨?_, ?_, ?_⟩
  · exact ((get_nscfg_predicate_resolution
      [(("nscfg_predicate-os").toList, ("custom_os = \"{}\"").toList)]
      "linux".toList "os".toList (by decide) (by decide) (by decide)).1
      ("custom_os = \"{}\"").toList (by decide)).trans rfl
  · exact ((get_nscfg_predicate_resolution [] "linux".toList "os".toList
      (by decide) (by decide) (by decide)).2.1
      ("target_os = \"{}\"").toList rfl (by decide)).trans rfl
  · exact (get_nscfg_predicate_resolution [] "linux".toList "zz".toList
      (by decide) (by decide) (by decide)).2.2 rfl (by decide)

/-- C2: for a bare label, `get_nscfg_alias` first consults the environment
variable `nscfg-<label>` and returns its value unchanged if set; otherwise it
consults the built-in ALIASES table and returns the stored expansion; if the
label is in neither it fails with `AliasNotFound(label)`. -/
theorem get_nscfg_alias_resolution (env : EnvMap) (label : Str) :
    (∀ v, lookupEnv env (ENV_KEY_ALIAS ++ label) = some v →
      get_nscfg_alias env label = Except.ok v)
    ∧ (∀ exp, lookupEnv env (ENV_KEY_ALIAS ++ label) = none → (label, exp) ∈ ALIASES →
      get_nscfg_alias env label = Except.ok exp)
    ∧ (lookupEnv env (ENV_KEY_ALIAS ++ label) = none → label ∉ ALIASES.map Prod.fst →
      get_nscfg_alias env label = Except.error (NSCFGError.AliasNotFound label)) := by
  refine ⟨fun v h => ?_, fun exp h hm => ?_, fun h hm => ?_⟩ <;> unfold get_nscfg_alias
  · rw [h]
  · rw [h, find?_assoc_eq_some ALIASES_keys_nodup hm]
  · rw [h, find?_assoc_eq_none hm]

/-- Witness for C2: an override for `linux` wins, the built-in expansion is
returned without one, and an unknown label `zz` is rejected. -/
theorem get_nscfg_alias_resolution_witness :
    get_nscfg_alias [(("nscfg-linux").toList, ("custom:os").toList)] "linux".toList
      = Except.ok ("custom:os").toList
    ∧ get_nscfg_alias [] "linux".toList = Except.ok ("linux:os").toList
    ∧ get_nscfg_alias [] "zz".toList
      = Except.error (NSCFGError.AliasNotFound "zz".toList) := by
  refine ⟨?_, ?_, ?_⟩
  · exact (get_nscfg_alias_resolution
      [(("nscfg-linux").toList, ("custom:os").toList)] "linux".toList).1
      ("custom:os").toList (by decide)
  · exact (get_nscfg_alias_resolution [] "linux".toList).2.1
      ("linux:os").toList rfl (by decide)
  · exact (get_nscfg_alias_resolution [] "zz".toList).2.2 rfl (by decide)

/-- C3: the built-in alias table and the built-in predicate table each have
exactly 12 entries; the last predicate entry is the wildcard key `_` with the
bare placeholder as its template, so substitution returns the label itself;
`desktop` expands to the OR of the three desktop OS predicates and the `os`
template is the `target_os` predicate. -/
theorem builtin_tables_contract :
    ALIASES.length = 12 ∧ PREDICATES.length = 12
    ∧ PREDICATES.getLast? = some ("_".toList, PREDICATE_PLACEHOLDER)
    ∧ PREDICATE_PLACEHOLDER = "{}".toList
    ∧ ("desktop".toList, ("linux:os | windows:_ | macos:os").toList) ∈ ALIASES
    ∧ ("os".toList, ("target_os = \"{}\"").toList) ∈ PREDICATES
    ∧ ∀ label : Str, replaceAll PREDICATE_PLACEHOLDER PREDICATE_PLACEHOLDER label = label := by
  refine ⟨rfl, rfl, by decide, rfl, by decide, by decide, fun label => ?_⟩
  show label ++ [] = label
  exact List.append_nil label

/-- C4: with no `nscfg-linux` and no `nscfg_predicate-os` override set,
resolving the alias `linux` yields `linux:os`, and resolving that result as a
predicate yields exactly the predicate obtained from key `os` with label
`linux`. -/
theorem alias_predicate_roundtrip (env : EnvMap)
    (h1 : lookupEnv env (ENV_KEY_ALIAS ++ "linux".toList) = none)
    (h2 : lookupEnv env (ENV_KEY_PREDICATE ++ "os".toList) = none) :
    get_nscfg_alias env "linux".toList = Except.ok ("linux:os").toList
    ∧ get_nscfg_predicate env ("linux:os").toList
      = Except.ok ("target_os = \"linux\"").toList := by
  constructor
  · unfold get_nscfg_alias
    rw [h1]
    rfl
  · rw [show ("linux:os").toList = "linux".toList ++ ':' :: "os".toList from rfl,
      get_nscfg_predicate_split env "linux".toList "os".toList (by decide),
      show trim "linux".toList = "linux".toList from rfl,
      show trim "os".toList = "os".toList from rfl]
    exact (predicate_lookup_builtin env "linux".toList "os".toList
      ("target_os = \"{}\"").toList h2 (by decide)).trans rfl

/-- Witness for C4 in the empty environment. -/
theorem alias_predicate_roundtrip_witness :
    get_nscfg_alias [] "linux".toList = Except.ok ("linux:os").toList
    ∧ get_nscfg_predicate [] ("linux:os").toList
      = Except.ok ("target_os = \"linux\"").toList :=
  alias_predicate_roundtrip [] rfl rfl

/-- C5: both emission loops preserve input arm order: target_cfg's output is
the concatenation, in arm order, of each arm's per-item blocks (cfg header,
cfg_attr header, item), and match_cfg's output is one brace group holding the
concatenation, in arm order, of each arm's cfg header and braced content; and
splitting a content block into items reassembles to the block, so no item is
dropped or reordered. -/
theorem emission_preserves_arm_order (arms : List TargetArm) :
    target_cfg arms = (arms.map target_arm_emission).flatten
    ∧ match_cfg arms
      = [TokenTree.group Delimiter.Brace ((arms.map match_arm_emission).flatten)]
    ∧ ∀ ts : TokenStream, (split_items ts).flatten = ts := by
  refine ⟨?_, ?_, split_items_flatten⟩
  · have h := target_cfg_foldl arms []
    simpa [target_cfg] using h
  · unfold match_cfg
    rw [match_cfg_foldl arms []]
    simp

/-- C6: `is_nscfg_autodoc` defaults to true when `nscfg_autodoc` is unset and
follows the values "true" and "false"; `get_release_modifier_behaviour`
defaults to Panic when `nscfg_release_modifier_behaviour` is unset and follows
the values "panic" and "ignore". -/
theorem config_flag_defaults (env : EnvMap) :
    (lookupEnv env AUTO_DOC_KEY = none → is_nscfg_autodoc env = true)
    ∧ (lookupEnv env AUTO_DOC_KEY = some "true".toList → is_nscfg_autodoc env = true)
    ∧ (lookupEnv env AUTO_DOC_KEY = some "false".toList → is_nscfg_autodoc env = false)
    ∧ (lookupEnv env MODIFIER_BEHAVIOUR_KEY = none →
        get_release_modifier_behaviour env = ReleaseModifierBehaviour.Panic)
    ∧ (lookupEnv env MODIFIER_BEHAVIOUR_KEY = some "panic".toList →
        get_release_modifier_behaviour env = ReleaseModifierBehaviour.Panic)
    ∧ (lookupEnv env MODIFIER_BEHAVIOUR_KEY = some "ignore".toList →
        get_release_modifier_behaviour env = ReleaseModifierBehaviour.Ignore) := by
  refine ⟨fun h => ?_, fun h => ?_, fun h => ?_, fun h => ?_, fun h => ?_, fun h => ?_⟩
  · unfold is_nscfg_autodoc; rw [h]
  · unfold is_nscfg_autodoc; rw [h]; rfl
  · unfold is_nscfg_autodoc; rw [h]; rfl
  · unfold get_release_modifier_behaviour; rw [h]
  · unfold get_release_modifier_behaviour; rw [h]; rfl
  · unfold get_release_modifier_behaviour; rw [h]; rfl

/-- Witness for C6: defaults in the empty environment and the stated values
when the flags are set. -/
theorem config_flag_defaults_witness :
    is_nscfg_autodoc [] = true
    ∧ is_nscfg_autodoc [(AUTO_DOC_KEY, "false".toList)] = false
    ∧ get_release_modifier_behaviour [] = ReleaseModifierBehaviour.Panic
    ∧ get_release_modifier_behaviour [(MODIFIER_BEHAVIOUR_KEY, "ignore".toList)]
        = ReleaseModifierBehaviour.Ignore := by
  refine ⟨?_, ?_, ?_, ?_⟩
  · exact (config_flag_defaults []).1 rfl
  · exact (config_flag_defaults [(AUTO_DOC_KEY, "false".toList)]).2.2.1 rfl
  · exact (config_flag_defaults []).2.2.2.1 rfl
  · exact (config_flag_defaults
      [(MODIFIER_BEHAVIOUR_KEY, "ignore".toList)]).2.2.2.2.2 rfl

/-- C7: the attribute form meta_cfg builds exactly the token stream of the
single arm `attr => \x7b item \x7d` — the attribute tokens, the parsed
separator `=>`, then the item in one brace group — and hands it to the
target_cfg entry point, for every attribute and item stream. -/
theorem meta_cfg_desugars_to_single_arm (tc : TokenStream → TokenStream)
    (attr_ts item : TokenStream) :
    meta_cfg tc attr_ts item = tc (single_arm_invocation attr_ts item) := rfl

/-- C8 evidence: the rendered lookup-failure messages name the configuration
keys `target_cfg-<label>` and `target_cfg_predicate-<key>`, not the keys
`nscfg-<label>` and `nscfg_predicate-<key>` the resolvers actually consult:
the consulted key does not occur in the message at all. -/
theorem error_message_stale_key :
    (NSCFGError.AliasNotFound "linux".toList).message []
      = ("Alias `linux` has no match! Is it added in config.toml as `target_cfg-linux`?").toList
    ∧ hasSubstr ((NSCFGError.AliasNotFound "linux".toList).message [])
        (ENV_KEY_ALIAS ++ "linux".toList) = false
    ∧ (NSCFGError.InvalidConfigurationPredicate "os".toList).message []
      = ("Configuration predicate `os` has no match! Is it added in config.toml as `target_cfg_predicate-os`?").toList
    ∧ hasSubstr ((NSCFGError.InvalidConfigurationPredicate "os".toList).message [])
        (ENV_KEY_PREDICATE ++ "os".toList) = false := by
  refine ⟨rfl, by decide, rfl, by decide⟩

/-- C9: `get_nscfg_predicate` is total: an input without a colon is rejected
with `InvalidConfigurationPredicate` carrying the whole input; with a first
colon at any position the function proceeds on the trimmed take/drop slices,
which are always in range — including a leading colon (empty label, the
built-in template is filled with the empty string) and a trailing colon (empty
key, rejected carrying the empty string). -/
theorem get_nscfg_predicate_total (env : EnvMap) (tokens : Str) :
    (':' ∉ tokens →
      get_nscfg_predicate env tokens =
        Except.error (NSCFGError.InvalidConfigurationPredicate tokens))
    ∧ (∀ position, findColon tokens = some position →
      get_nscfg_predicate env tokens =
        predicate_lookup env (trim (tokens.take position))
          (trim (tokens.drop (position + 1))))
    ∧ get_nscfg_predicate [] (':' :: "os".toList) = Except.ok ("target_os = \"\"").toList
    ∧ get_nscfg_predicate [] ("os".toList ++ [':'])
      = Except.error (NSCFGError.InvalidConfigurationPredicate []) := by
  refine ⟨fun h => ?_, fun position h => ?_, rfl, rfl⟩
  · unfold get_nscfg_predicate
    rw [findColon_eq_none h]
  · unfold get_nscfg_predicate
    rw [h]

/-- Witness for C9: a colon-free input is rejected with the whole input
text. -/
theorem get_nscfg_predicate_total_witness :
    get_nscfg_predicate [] "linux".toList
      = Except.error (NSCFGError.InvalidConfigurationPredicate "linux".toList) :=
  (get_nscfg_predicate_total [] "linux".toList).1 (by decide)

/-- C10: `if_docsrs_enabled` panics (none) exactly when both the cache
variable and CARGO_MANIFEST_DIR are unset; a set cache variable gives its
cached boolean with the environment untouched; a set CARGO_MANIFEST_DIR always
yields a boolean, and a missing manifest file yields false (cached), not a
panic. -/
theorem if_docsrs_enabled_panic_condition (env : EnvMap) (fs : EnvMap) :
    (lookupEnv env NSCFG_CARGO_CACHE = none → lookupEnv env CARGO_MANIFEST_DIR = none →
      if_docsrs_enabled env fs = none)
    ∧ (∀ v, lookupEnv env NSCFG_CARGO_CACHE = some v →
      if_docsrs_enabled env fs = some (v == "true".toList, env))
    ∧ (∀ dir, lookupEnv env NSCFG_CARGO_CACHE = none →
        lookupEnv env CARGO_MANIFEST_DIR = some dir →
        if_docsrs_enabled env fs ≠ none)
    ∧ (∀ dir, lookupEnv env NSCFG_CARGO_CACHE = none →
        lookupEnv env CARGO_MANIFEST_DIR = some dir →
        lookupEnv fs (dir ++ "/".toList ++ CARGO_MANIFEST_NAME) = none →
        if_docsrs_enabled env fs =
          some (false, setEnv env NSCFG_CARGO_CACHE "false".toList)) := by
  refine ⟨fun h1 h2 => ?_, fun v h => ?_, fun dir h1 h2 => ?_, fun dir h1 h2 h3 => ?_⟩
  · unfold if_docsrs_enabled; rw [h1, h2]
  · unfold if_docsrs_enabled; rw [h]
  · simp only [if_docsrs_enabled, h1, h2]
    cases hfs : lookupEnv fs (dir ++ "/".toList ++ CARGO_MANIFEST_NAME) with
    | none => simp
    | some content => cases hsub : hasSubstr content NSCFG_DOCRS_TAG <;> simp [hsub]
  · simp only [if_docsrs_enabled, h1, h2]
    rw [h3]

/-- Witness for C10: the double-unset environment panics; with only
CARGO_MANIFEST_DIR set and no manifest file the probe returns false and caches
it. -/
theorem if_docsrs_enabled_panic_condition_witness :
    if_docsrs_enabled [] [] = none
    ∧ if_docsrs_enabled [(CARGO_MANIFEST_DIR, "/proj".toList)] []
      = some (false,
          setEnv [(CARGO_MANIFEST_DIR, "/proj".toList)] NSCFG_CARGO_CACHE "false".toList) := by
  constructor
  · exact (if_docsrs_enabled_panic_condition [] []).1 rfl rfl
  · exact (if_docsrs_enabled_panic_condition
      [(CARGO_MANIFEST_DIR, "/proj".toList)] []).2.2.2 "/proj".toList rfl rfl rfl

end Nscfg
